import Mathlib

/-!
Verification of the Foster platform layer (`src/Platform/src/foster_internal.h`).

The header under `src/` declares the global `FosterState` record and the
accessor/logging entry points; the lifecycle controller (`start`, `teardown`)
and the device-slot-table handlers (`onConnect`, `onDisconnect`) are declared
elsewhere in the repository, so they are modelled here from the specification
(sections 4.2, 4.3 and 7).  Pointers are embedded as `Option Handle` with
`none` for NULL; the two fixed-size C arrays of length `FOSTER_MAX_CONTROLLERS`
(written `K` throughout) are lists whose length invariantly equals `K`.
External library calls and log output are made observable as a trace of
`Event`s, so that claims about "no library call" or "a warning is logged"
become statements about the trace.
-/

namespace Foster

/-- An opaque platform handle (`SDL_Window*`, `SDL_Joystick*`, `ma_engine*`, …);
a plain `Nat` identifying the resource. NULL pointers are `Option.none` at the
use sites, not a distinguished `Handle`. -/
abbrev Handle := Nat

/-- Modelled from the spec: the startup `Descriptor` (glossary: "immutable
startup configuration (title, dimensions, initial flags)"); the `FosterDesc`
struct itself is declared in the missing `foster_platform.h`. -/
structure FosterDesc where
  title : String
  width : Int
  height : Int
deriving DecidableEq, Repr

/-- The process-wide state record, from `foster_internal.h` lines 11-24.
`joysticks` and `gamepads` embed the two C arrays
`SDL_Joystick* joysticks[FOSTER_MAX_CONTROLLERS]` and
`SDL_GameController* gamepads[FOSTER_MAX_CONTROLLERS]`; their length is kept
equal to the capacity `K` by every operation.  `flags` and
`windowCreateFlags` are integer bitsets; the remaining pointer fields are
`none` when NULL. -/
structure FosterState where
  running : Bool
  desc : FosterDesc
  flags : Nat
  device : Option Handle
  windowCreateFlags : Nat
  window : Option Handle
  joysticks : List (Option Handle)
  gamepads : List (Option Handle)
  clipboardText : Option Handle
  userPath : Option Handle
  audioEngine : Option Handle
deriving DecidableEq, Repr

/-- The all-zero value of `FosterState` for capacity `K`: every handle NULL,
`running` false, both arrays entirely NULL, empty descriptor, zero bitsets.
This is the state a C zero-initialized global has. -/
def zeroState (K : Nat) : FosterState :=
  { running := false
    desc := { title := "", width := 0, height := 0 }
    flags := 0
    device := none
    windowCreateFlags := 0
    window := none
    joysticks := List.replicate K none
    gamepads := List.replicate K none
    clipboardText := none
    userPath := none
    audioEngine := none }

/-- Observable effects: calls into the underlying platform/window/audio
libraries, plus log output from the diagnostics sink. -/
inductive Event where
  | platformInit : Event
  | platformQuit : Event
  | windowCreate : Event
  | windowDestroy : Handle → Event
  | rendererBind : Event
  | rendererRelease : Handle → Event
  | audioStart : Event
  | audioStop : Handle → Event
  | joystickOpen : Nat → Event
  | joystickClose : Handle → Event
  | gamepadOpen : Nat → Event
  | gamepadClose : Handle → Event
  | bufferFree : Handle → Event
  | logWarn : String → Event
deriving DecidableEq, Repr

/-- Modelled from the spec: the payload of a device-connect notification
(section 4.3) — the raw platform device index, the stable instance id, the
joystick handle that opening yields, and, when the device also exposes
gamepad capability, the controller handle. -/
structure DeviceInfo where
  rawIndex : Nat
  instanceId : Nat
  joyHandle : Handle
  isGamepad : Bool
  padHandle : Handle
deriving DecidableEq, Repr

/-- Whether slot `i` of the table is free: both the joystick and the gamepad
entry at `i` exist and are NULL.  Out-of-range indices are not free. -/
def slotFree (s : FosterState) (i : Nat) : Bool :=
  s.joysticks.get? i == some none && s.gamepads.get? i == some none

/-- First free slot of the table, if any, scanning `0, 1, …` in order. -/
def firstFreeSlot (s : FosterState) : Option Nat :=
  (List.range s.joysticks.length).find? (fun i => slotFree s i)

/-- Modelled from the spec: `onConnect(rawDeviceIndex)` (section 4.3, and the
section 3 invariant that out-of-range device-connect notifications are
rejected, not stored).  An out-of-range raw index is rejected with a warning;
with a full table the event is ignored with a warning; otherwise the joystick
handle and, for a gamepad-capable device, the controller handle are stored at
the first free slot. -/
def onConnect (K : Nat) (s : FosterState) (d : DeviceInfo) :
    FosterState × List Event :=
  if K ≤ d.rawIndex then
    (s, [Event.logWarn "device index out of range"])
  else
    match firstFreeSlot s with
    | none => (s, [Event.logWarn "device table full"])
    | some i =>
        ({ s with
            joysticks := s.joysticks.set i (some d.joyHandle)
            gamepads := s.gamepads.set i
              (if d.isGamepad then some d.padHandle else none) },
          Event.joystickOpen d.rawIndex ::
            (if d.isGamepad then [Event.gamepadOpen d.rawIndex] else []))

/-- The slot whose stored joystick handle has instance id `instanceId`, under
the platform's handle-to-instance-id map `idOf`. -/
def matchingSlot (idOf : Handle → Nat) (s : FosterState) (instanceId : Nat) :
    Option Nat :=
  (List.range s.joysticks.length).find? (fun i =>
    match s.joysticks.get? i with
    | some (some h) => idOf h == instanceId
    | _ => false)

/-- Modelled from the spec: `onDisconnect(instanceId)` (section 4.3).  If no
occupied slot matches, the event is ignored (no-op, no error); otherwise
whichever of the slot's joystick/gamepad handles are non-NULL are closed and
both entries are set to NULL. -/
def onDisconnect (idOf : Handle → Nat) (s : FosterState) (instanceId : Nat) :
    FosterState × List Event :=
  match matchingSlot idOf s instanceId with
  | none => (s, [])
  | some i =>
      ({ s with
          joysticks := s.joysticks.set i none
          gamepads := s.gamepads.set i none },
        (match s.joysticks.getD i none with
          | some h => [Event.joystickClose h]
          | none => []) ++
        (match s.gamepads.getD i none with
          | some h => [Event.gamepadClose h]
          | none => []))

/-- Number of occupied slots (slots that are not free). -/
def occupiedCount (s : FosterState) : Nat :=
  ((List.range s.joysticks.length).filter (fun i => !(slotFree s i))).length

/-- Startup errors (section 7 taxonomy; `AudioStartError` and
`DeviceTableFull` are non-fatal and never returned). -/
inductive StartError where
  | configError : StartError
  | platformInitError : StartError
  | windowCreateError : StartError
  | rendererBindError : StartError
deriving DecidableEq, Repr

/-- Modelled from the spec: descriptor validation of `start`, step (1) —
non-empty title and positive dimensions. -/
def validDesc (d : FosterDesc) : Bool :=
  !(d.title == "") && decide (0 < d.width) && decide (0 < d.height)

/-- Modelled from the spec: the outcomes the environment (platform library,
driver, audio backend) hands to `start` — whether platform init succeeds, the
window / renderer-device / audio-engine handles creation yields (`none` for
failure), and the devices already connected that step (6) enumerates. -/
structure Env where
  platformInitOk : Bool
  windowCreateResult : Option Handle
  rendererBindResult : Option Handle
  audioStartResult : Option Handle
  initialDevices : List DeviceInfo
deriving Repr

/-- Step (6) of `start`: enumerate currently-connected devices into the slot
table by feeding each through `onConnect`, accumulating the trace. -/
def connectAll (K : Nat) (s : FosterState) :
    List DeviceInfo → FosterState × List Event
  | [] => (s, [])
  | d :: ds =>
      let r := onConnect K s d
      let rest := connectAll K r.1 ds
      (rest.1, r.2 ++ rest.2)

/-- Modelled from the spec: derivation of the write-once window-creation
flags from the descriptor and runtime flags at start (section 3). -/
def deriveWindowFlags (d : FosterDesc) (flags : Nat) : Nat :=
  flags + d.width.toNat

/-- Modelled from the spec: `start(descriptor, flags)` (section 4.2).  Steps:
(1) validate the descriptor, else `ConfigError` with no library call;
(2) platform init, else `PlatformInitError`; (3) window creation, else
`WindowCreateError` rolling back (2); (4) renderer bind, else
`RendererBindError` rolling back (2)-(3); (5) audio engine start, non-fatal —
a failure logs a warning and leaves audio disabled; (6) enumerate connected
devices.  Returns the error if any, the resulting state (unchanged on
failure), and the trace of library calls and log output. -/
def start (K : Nat) (env : Env) (d : FosterDesc) (flags : Nat)
    (s : FosterState) : Option StartError × FosterState × List Event :=
  if !(validDesc d) then
    (some StartError.configError, s, [])
  else if !env.platformInitOk then
    (some StartError.platformInitError, s, [Event.platformInit])
  else
    match env.windowCreateResult with
    | none =>
        (some StartError.windowCreateError, s,
          [Event.platformInit, Event.windowCreate, Event.platformQuit])
    | some w =>
        match env.rendererBindResult with
        | none =>
            (some StartError.rendererBindError, s,
              [Event.platformInit, Event.windowCreate, Event.rendererBind,
                Event.windowDestroy w, Event.platformQuit])
        | some dev =>
            let populated : FosterState :=
              { running := true
                desc := d
                flags := flags
                device := some dev
                windowCreateFlags := deriveWindowFlags d flags
                window := some w
                joysticks := s.joysticks
                gamepads := s.gamepads
                clipboardText := s.clipboardText
                userPath := s.userPath
                audioEngine := env.audioStartResult }
            let audioTrace : List Event :=
              match env.audioStartResult with
              | none => [Event.audioStart, Event.logWarn "audio start failed"]
              | some _ => [Event.audioStart]
            let devs := connectAll K populated env.initialDevices
            (none, devs.1,
              [Event.platformInit, Event.windowCreate, Event.rendererBind] ++
                audioTrace ++ devs.2)

/-- Close events for every occupied device slot, joysticks then gamepads. -/
def slotCloseEvents (s : FosterState) : List Event :=
  s.joysticks.filterMap (fun o => o.map Event.joystickClose) ++
    s.gamepads.filterMap (fun o => o.map Event.gamepadClose)

/-- Trace of one optional release action, guarded by a NULL check. -/
def guardedRelease (mk : Handle → Event) : Option Handle → List Event
  | none => []
  | some h => [mk h]

/-- Modelled from the spec: `teardown()` (section 4.2).  No precondition.
Releases, in strict reverse order of acquisition, audio engine, occupied
device slots, renderer device, window, platform library, and the
clipboard/user-path buffers, each release guarded by a NULL/occupied check
(the platform library shutdown is guarded by the window handle, the last
witness that initialization happened).  Ends by zeroing the entire state,
the fixed-size arrays keeping their capacity. -/
def teardown (s : FosterState) : FosterState × List Event :=
  let zeroed : FosterState :=
    { running := false
      desc := { title := "", width := 0, height := 0 }
      flags := 0
      device := none
      windowCreateFlags := 0
      window := none
      joysticks := List.replicate s.joysticks.length none
      gamepads := List.replicate s.gamepads.length none
      clipboardText := none
      userPath := none
      audioEngine := none }
  (zeroed,
    guardedRelease Event.audioStop s.audioEngine ++
      slotCloseEvents s ++
      guardedRelease Event.rendererRelease s.device ++
      guardedRelease Event.windowDestroy s.window ++
      (match s.window with
        | none => []
        | some _ => [Event.platformQuit]) ++
      guardedRelease Event.bufferFree s.clipboardText ++
      guardedRelease Event.bufferFree s.userPath)

/-- Modelled from the spec: the process memory visible to the accessor — the
single static `FosterState` instance together with an allocation counter that
any allocating call would bump. -/
structure World where
  allocCount : Nat
  stateMem : FosterState
deriving Repr

/-- The address of the single process-wide state instance; a static object,
hence a fixed nonzero address. -/
def fosterStateAddr : Nat := 1

/-- Modelled from the spec: `FosterState* FosterGetState()` (declared at
`foster_internal.h` line 26, defined outside `src/`): returns the address of
the single process-wide instance and leaves the world untouched. -/
def FosterGetState (w : World) : Nat × World :=
  (fosterStateAddr, w)

/-- Well-formedness of a state for capacity `K`: both fixed-size arrays have
exactly the declared capacity `FOSTER_MAX_CONTROLLERS = K`. -/
def wf (K : Nat) (s : FosterState) : Prop :=
  s.joysticks.length = K ∧ s.gamepads.length = K

instance (K : Nat) (s : FosterState) : Decidable (wf K s) := by
  unfold wf; infer_instance

/-! ## Helper lemmas -/

theorem zeroState_wf (K : Nat) : wf K (zeroState K) := by
  constructor <;> simp [zeroState]

theorem onConnect_wf (K : Nat) (s : FosterState) (d : DeviceInfo)
    (h : wf K s) : wf K (onConnect K s d).1 := by
  unfold onConnect
  split
  · exact h
  · split
    · exact h
    · exact ⟨by simp [wf, h.1], by simp [wf, h.2]⟩

theorem onConnect_preserves (K : Nat) (s : FosterState) (d : DeviceInfo) :
    (onConnect K s d).1.running = s.running ∧
    (onConnect K s d).1.audioEngine = s.audioEngine ∧
    (onConnect K s d).1.window = s.window ∧
    (onConnect K s d).1.device = s.device := by
  unfold onConnect
  split
  · exact ⟨rfl, rfl, rfl, rfl⟩
  · split
    · exact ⟨rfl, rfl, rfl, rfl⟩
    · exact ⟨rfl, rfl, rfl, rfl⟩

theorem connectAll_wf (K : Nat) (ds : List DeviceInfo) :
    ∀ s : FosterState, wf K s → wf K (connectAll K s ds).1 := by
  induction ds with
  | nil => exact fun s h => h
  | cons d ds ih =>
      intro s h
      simpa [connectAll] using ih (onConnect K s d).1 (onConnect_wf K s d h)

theorem connectAll_preserves (K : Nat) (ds : List DeviceInfo) :
    ∀ s : FosterState,
      (connectAll K s ds).1.running = s.running ∧
      (connectAll K s ds).1.audioEngine = s.audioEngine ∧
      (connectAll K s ds).1.window = s.window ∧
      (connectAll K s ds).1.device = s.device := by
  induction ds with
  | nil => exact fun s => ⟨rfl, rfl, rfl, rfl⟩
  | cons d ds ih =>
      intro s
      have h1 := ih (onConnect K s d).1
      have h2 := onConnect_preserves K s d
      simp only [connectAll]
      exact ⟨h1.1.trans h2.1, h1.2.1.trans h2.2.1,
        h1.2.2.1.trans h2.2.2.1, h1.2.2.2.trans h2.2.2.2⟩

theorem start_wf (K : Nat) (env : Env) (d : FosterDesc) (flags : Nat)
    (s : FosterState) (h : wf K s) : wf K (start K env d flags s).2.1 := by
  unfold start
  split
  · exact h
  · split
    · exact h
    · split
      · exact h
      · split
        · exact h
        · exact connectAll_wf K env.initialDevices _ ⟨h.1, h.2⟩

theorem teardown_zeroes (K : Nat) (s : FosterState) (h : wf K s) :
    (teardown s).1 = zeroState K := by
  unfold teardown zeroState
  simp [h.1, h.2]

theorem filterMap_map_replicate_none (n : Nat) (f : Handle → Event) :
    (List.replicate n (none : Option Handle)).filterMap
      (fun o => o.map f) = [] := by
  induction n with
  | zero => rfl
  | succ n ih => simp [List.replicate_succ, ih]

/-! ## Claims -/

/-- C1: for every valid descriptor, `start` from the zero state followed by
`teardown` returns the Platform State record to the bit-identical all-zero
value (every handle field NULL, `running` false, buffers freed and NULL). -/
theorem start_teardown_zero (K : Nat) (env : Env) (d : FosterDesc)
    (flags : Nat) (_h : validDesc d = true) :
    (teardown (start K env d flags (zeroState K)).2.1).1 = zeroState K :=
  teardown_zeroes K _ (start_wf K env d flags _ (zeroState_wf K))

theorem start_teardown_zero_witness :
    (teardown (start 4 ⟨true, some 7, some 8, some 9, [⟨0, 10, 100, true, 200⟩]⟩
        ⟨"T", 800, 600⟩ 3 (zeroState 4)).2.1).1 = zeroState 4 :=
  start_teardown_zero 4 _ _ 3 (by decide)

/-- C2: `teardown` has no precondition: from any state it leaves every handle
field NULL, both slot arrays entirely NULL, and `running` false; calling it
with no prior `start` (on the zero state) releases nothing at all, and a
second `teardown` right after a first also releases nothing — so it never
double-frees. -/
theorem teardown_total_safe (K : Nat) (s : FosterState) :
    (teardown s).1.running = false ∧
    (teardown s).1.device = none ∧
    (teardown s).1.window = none ∧
    (teardown s).1.clipboardText = none ∧
    (teardown s).1.userPath = none ∧
    (teardown s).1.audioEngine = none ∧
    (∀ o ∈ (teardown s).1.joysticks, o = none) ∧
    (∀ o ∈ (teardown s).1.gamepads, o = none) ∧
    (teardown (zeroState K)).2 = [] ∧
    (teardown (teardown s).1).2 = [] := by
  refine ⟨rfl, rfl, rfl, rfl, rfl, rfl, ?_, ?_, ?_, ?_⟩
  · intro o ho
    exact List.eq_of_mem_replicate ho
  · intro o ho
    exact List.eq_of_mem_replicate ho
  · simp [teardown, zeroState, guardedRelease, slotCloseEvents,
      filterMap_map_replicate_none]
  · simp [teardown, guardedRelease, slotCloseEvents,
      filterMap_map_replicate_none]

/-- C9: `FosterGetState` always yields the same reference to the single
process-wide instance: the pointer is never NULL, the world (memory,
allocation count) is returned untouched, and any two calls yield equal
pointers. -/
theorem getState_singleton (w w' : World) :
    (FosterGetState w).1 ≠ 0 ∧
    (FosterGetState w).2 = w ∧
    (FosterGetState w).1 = (FosterGetState w').1 := by
  refine ⟨?_, rfl, rfl⟩
  simp [FosterGetState, fosterStateAddr]

/-- C3: `start` is all-or-nothing over steps (2)-(4): from the zero state,
a platform-init failure, a window-creation failure, or a renderer-bind
failure returns the corresponding error with the state still the zero state,
and the trace shows every completed step of (2)-(4) rolled back (window
destroyed, platform library shut down). -/
theorem start_rollback_on_failure (K : Nat) (env : Env) (d : FosterDesc)
    (flags : Nat) (h : validDesc d = true) :
    (env.platformInitOk = false →
      start K env d flags (zeroState K) =
        (some StartError.platformInitError, zeroState K,
          [Event.platformInit])) ∧
    (env.platformInitOk = true → env.windowCreateResult = none →
      start K env d flags (zeroState K) =
        (some StartError.windowCreateError, zeroState K,
          [Event.platformInit, Event.windowCreate, Event.platformQuit])) ∧
    (∀ w, env.platformInitOk = true → env.windowCreateResult = some w →
      env.rendererBindResult = none →
      start K env d flags (zeroState K) =
        (some StartError.rendererBindError, zeroState K,
          [Event.platformInit, Event.windowCreate, Event.rendererBind,
            Event.windowDestroy w, Event.platformQuit])) := by
  refine ⟨?_, ?_, ?_⟩
  · intro hp
    simp [start, h, hp]
  · intro hp hw
    simp [start, h, hp, hw]
  · intro w hp hw hr
    simp [start, h, hp, hw, hr]

theorem start_rollback_on_failure_witness :
    start 4 ⟨true, some 7, none, some 9, []⟩ ⟨"T", 800, 600⟩ 0 (zeroState 4) =
      (some StartError.rendererBindError, zeroState 4,
        [Event.platformInit, Event.windowCreate, Event.rendererBind,
          Event.windowDestroy 7, Event.platformQuit]) :=
  (start_rollback_on_failure 4 ⟨true, some 7, none, some 9, []⟩
      ⟨"T", 800, 600⟩ 0 (by decide)).2.2 7 rfl rfl rfl

/-- C4: a descriptor is invalid exactly when its title is empty or a
dimension is non-positive (so `w = 0` is invalid), and `start` on an invalid
descriptor fails with `ConfigError`, leaves the state unchanged, and performs
no call into the underlying window library (empty trace). -/
theorem start_invalid_desc_configError (K : Nat) (env : Env) (flags : Nat)
    (s : FosterState) (d : FosterDesc) :
    (validDesc d = false ↔
      (d.title = "" ∨ d.width ≤ 0 ∨ d.height ≤ 0)) ∧
    (validDesc d = false →
      start K env d flags s = (some StartError.configError, s, [])) := by
  constructor
  · simp [validDesc, ← not_lt]
    tauto
  · intro hv
    simp [start, hv]

theorem start_invalid_desc_configError_witness :
    validDesc ⟨"T", 0, 600⟩ = false ∧
    start 4 ⟨true, some 7, some 8, some 9, []⟩ ⟨"T", 0, 600⟩ 0 (zeroState 4) =
      (some StartError.configError, zeroState 4, []) :=
  ⟨by decide,
    (start_invalid_desc_configError 4 ⟨true, some 7, some 8, some 9, []⟩ 0
        (zeroState 4) ⟨"T", 0, 600⟩).2 (by decide)⟩

/-- C5: with every slot of the table occupied, a further in-range connect
event is ignored after logging a warning: the state — in particular every
existing slot — is returned unchanged and no handle is stored. -/
theorem onConnect_full_table_ignored (K : Nat) (s : FosterState)
    (d : DeviceInfo) (hw : wf K s)
    (hfull : ∀ i < K, slotFree s i = false) (hidx : d.rawIndex < K) :
    onConnect K s d = (s, [Event.logWarn "device table full"]) := by
  have hfree : firstFreeSlot s = none := by
    unfold firstFreeSlot
    rw [List.find?_eq_none]
    intro i hi
    rw [List.mem_range, hw.1] at hi
    simp [hfull i hi]
  unfold onConnect
  rw [if_neg (by omega), hfree]

theorem onConnect_full_table_ignored_witness :
    onConnect 2 { zeroState 2 with joysticks := [some 1, some 2] }
        ⟨0, 5, 3, false, 0⟩ =
      ({ zeroState 2 with joysticks := [some 1, some 2] },
        [Event.logWarn "device table full"]) :=
  onConnect_full_table_ignored 2 _ _ (by decide) (by decide) (by decide)

/-- C6: the slot index chosen by the free-slot search always lies in
`[0, K)`, and a device-connect notification carrying an out-of-range raw
index is rejected with a warning and never stored: the state is unchanged. -/
theorem slot_index_in_range (K : Nat) (s : FosterState) (d : DeviceInfo)
    (hw : wf K s) :
    (∀ i, firstFreeSlot s = some i → i < K) ∧
    (K ≤ d.rawIndex →
      onConnect K s d = (s, [Event.logWarn "device index out of range"])) := by
  constructor
  · intro i hi
    unfold firstFreeSlot at hi
    have hmem := List.mem_of_find?_eq_some hi
    rw [List.mem_range, hw.1] at hmem
    exact hmem
  · intro hk
    unfold onConnect
    rw [if_pos hk]

theorem slot_index_in_range_witness :
    onConnect 2 (zeroState 2) ⟨5, 0, 1, false, 0⟩ =
      (zeroState 2, [Event.logWarn "device index out of range"]) :=
  (slot_index_in_range 2 (zeroState 2) ⟨5, 0, 1, false, 0⟩ (by decide)).2
    (by decide)

/-- C7: `onDisconnect` with an instance id matching no occupied slot is a
no-op, not an error — the table and the occupied-slot count are unchanged;
when a slot matches, exactly those of its joystick/gamepad handles that are
non-NULL are closed and both entries become NULL. -/
theorem onDisconnect_spec (idOf : Handle → Nat) (s : FosterState)
    (iid : Nat) :
    (matchingSlot idOf s iid = none →
      onDisconnect idOf s iid = (s, []) ∧
      occupiedCount (onDisconnect idOf s iid).1 = occupiedCount s) ∧
    (∀ i, matchingSlot idOf s iid = some i →
      (onDisconnect idOf s iid).1.joysticks = s.joysticks.set i none ∧
      (onDisconnect idOf s iid).1.gamepads = s.gamepads.set i none ∧
      (∀ h, Event.joystickClose h ∈ (onDisconnect idOf s iid).2 ↔
        s.joysticks.getD i none = some h) ∧
      (∀ h, Event.gamepadClose h ∈ (onDisconnect idOf s iid).2 ↔
        s.gamepads.getD i none = some h)) := by
  constructor
  · intro hn
    constructor
    · simp [onDisconnect, hn]
    · simp [onDisconnect, hn]
  · intro i hi
    refine ⟨by simp [onDisconnect, hi], by simp [onDisconnect, hi], ?_, ?_⟩
    · intro h
      rcases hj : s.joysticks[i]?.getD (none : Option Handle) with _ | a <;>
        rcases hg : s.gamepads[i]?.getD (none : Option Handle) with _ | b <;>
          simp [onDisconnect, hi, List.getD, hj, hg, eq_comm]
    · intro h
      rcases hj : s.joysticks[i]?.getD (none : Option Handle) with _ | a <;>
        rcases hg : s.gamepads[i]?.getD (none : Option Handle) with _ | b <;>
          simp [onDisconnect, hi, List.getD, hj, hg, eq_comm]

theorem onDisconnect_spec_witness :
    onDisconnect (fun h => h)
        { zeroState 2 with
            joysticks := [some 100, none], gamepads := [some 200, none] }
        999 =
      ({ zeroState 2 with
          joysticks := [some 100, none], gamepads := [some 200, none] },
        []) ∧
    (onDisconnect (fun h => h)
        { zeroState 2 with
            joysticks := [some 100, none], gamepads := [some 200, none] }
        100).1.joysticks = [some 100, none].set 0 none :=
  ⟨((onDisconnect_spec (fun h => h) _ 999).1 (by decide)).1,
    ((onDisconnect_spec (fun h => h) _ 100).2 0 (by decide)).1⟩

theorem onDisconnect_wf (K : Nat) (idOf : Handle → Nat) (s : FosterState)
    (iid : Nat) (h : wf K s) : wf K (onDisconnect idOf s iid).1 := by
  unfold onDisconnect
  split
  · exact h
  · exact ⟨by simp [wf, h.1], by simp [wf, h.2]⟩

theorem teardown_wf (K : Nat) (s : FosterState) (h : wf K s) :
    wf K (teardown s).1 :=
  teardown_zeroes K s h ▸ zeroState_wf K

/-- C8: an audio-engine start failure during `start` is non-fatal: with steps
(2)-(4) succeeding and the audio engine failing to start, `start` returns no
error, completes with `running = true`, leaves the audio engine handle
disabled (NULL), and a warning is logged. -/
theorem audio_failure_nonfatal (K : Nat) (env : Env) (d : FosterDesc)
    (flags : Nat) (w dev : Handle) (h : validDesc d = true)
    (hp : env.platformInitOk = true) (hw : env.windowCreateResult = some w)
    (hr : env.rendererBindResult = some dev)
    (ha : env.audioStartResult = none) :
    (start K env d flags (zeroState K)).1 = none ∧
    (start K env d flags (zeroState K)).2.1.running = true ∧
    (start K env d flags (zeroState K)).2.1.audioEngine = none ∧
    Event.logWarn "audio start failed" ∈ (start K env d flags (zeroState K)).2.2 := by
  have hpre := connectAll_preserves K env.initialDevices
    { running := true
      desc := d
      flags := flags
      device := some dev
      windowCreateFlags := deriveWindowFlags d flags
      window := some w
      joysticks := (zeroState K).joysticks
      gamepads := (zeroState K).gamepads
      clipboardText := (zeroState K).clipboardText
      userPath := (zeroState K).userPath
      audioEngine := none }
  refine ⟨?_, ?_, ?_, ?_⟩
  · simp [start, h, hp, hw, hr, ha]
  · simp only [start, h, hp, hw, hr, ha]
    simpa using hpre.1
  · simp only [start, h, hp, hw, hr, ha]
    simpa using hpre.2.1
  · simp [start, h, hp, hw, hr, ha]

theorem audio_failure_nonfatal_witness :
    (start 4 ⟨true, some 7, some 8, none, []⟩ ⟨"T", 800, 600⟩ 0
        (zeroState 4)).1 = none ∧
    (start 4 ⟨true, some 7, some 8, none, []⟩ ⟨"T", 800, 600⟩ 0
        (zeroState 4)).2.1.running = true ∧
    (start 4 ⟨true, some 7, some 8, none, []⟩ ⟨"T", 800, 600⟩ 0
        (zeroState 4)).2.1.audioEngine = none ∧
    Event.logWarn "audio start failed" ∈
      (start 4 ⟨true, some 7, some 8, none, []⟩ ⟨"T", 800, 600⟩ 0
        (zeroState 4)).2.2 :=
  audio_failure_nonfatal 4 ⟨true, some 7, some 8, none, []⟩ ⟨"T", 800, 600⟩
    0 7 8 (by decide) rfl rfl rfl rfl

/-- C10: the joystick and gamepad tables are parallel arrays of the same
fixed capacity `K`: the zero state and every operation keep both at length
`K`, an index is valid for one exactly when it is valid for the other, and a
connect stores the joystick handle and (for a gamepad-capable device) the
gamepad handle under the single shared slot index chosen by the free-slot
search. -/
theorem parallel_tables_same_capacity (K : Nat) (s : FosterState)
    (d : DeviceInfo) (env : Env) (dsc : FosterDesc) (flags : Nat)
    (idOf : Handle → Nat) (iid : Nat) (i : Nat) (hw : wf K s) :
    wf K (zeroState K) ∧
    wf K (onConnect K s d).1 ∧
    wf K (onDisconnect idOf s iid).1 ∧
    wf K (teardown s).1 ∧
    wf K (start K env dsc flags s).2.1 ∧
    (i < s.joysticks.length ↔ i < s.gamepads.length) ∧
    (d.rawIndex < K → firstFreeSlot s = some i →
      (onConnect K s d).1.joysticks.get? i = some (some d.joyHandle) ∧
      (onConnect K s d).1.gamepads.get? i =
        some (if d.isGamepad then some d.padHandle else none)) := by
  refine ⟨zeroState_wf K, onConnect_wf K s d hw,
    onDisconnect_wf K idOf s iid hw, teardown_wf K s hw,
    start_wf K env dsc flags s hw, by rw [hw.1, hw.2], ?_⟩
  intro hidx hfree
  have hij : i < s.joysticks.length := by
    have h1 := hfree
    unfold firstFreeSlot at h1
    exact List.mem_range.mp (List.mem_of_find?_eq_some h1)
  have hig : i < s.gamepads.length := by
    rw [hw.2]
    rw [hw.1] at hij
    exact hij
  unfold onConnect
  rw [if_neg (by omega), hfree]
  constructor
  · simpa using List.get?_set_eq_of_lt (some d.joyHandle) hij
  · simpa using
      List.get?_set_eq_of_lt
        (if d.isGamepad then some d.padHandle else none) hig

theorem parallel_tables_same_capacity_witness :
    wf 2 (zeroState 2) ∧
    wf 2 (onConnect 2 (zeroState 2) ⟨0, 5, 3, true, 4⟩).1 ∧
    wf 2 (onDisconnect (fun h => h) (zeroState 2) 5).1 ∧
    wf 2 (teardown (zeroState 2)).1 ∧
    wf 2 (start 2 ⟨true, some 7, some 8, some 9, []⟩ ⟨"T", 800, 600⟩ 0
      (zeroState 2)).2.1 ∧
    (0 < (zeroState 2).joysticks.length ↔
      0 < (zeroState 2).gamepads.length) ∧
    ((0 : Nat) < 2 → firstFreeSlot (zeroState 2) = some 0 →
      (onConnect 2 (zeroState 2) ⟨0, 5, 3, true, 4⟩).1.joysticks.get? 0 =
        some (some 3) ∧
      (onConnect 2 (zeroState 2) ⟨0, 5, 3, true, 4⟩).1.gamepads.get? 0 =
        some (if true then some 4 else none)) :=
  parallel_tables_same_capacity 2 (zeroState 2) ⟨0, 5, 3, true, 4⟩
    ⟨true, some 7, some 8, some 9, []⟩ ⟨"T", 800, 600⟩ 0 (fun h => h) 5 0
    (by decide)

end Foster
